import Mathlib

/-!
Verification of the Hy reader (`hy/lex/parser.py`): a shallow embedding of
the token-to-AST parser, the numeric/keyword classifier, the identifier
mangler, the dotted-list builder, and the reader-macro productions, together
with theorems checking the specification's claims against this embedding.

Strings are modelled as Lean `String`s; character-level manipulation is done
on `String.data` (`List Char`), which matches Python's per-character string
operations.  Machine-independent data (line and column numbers) are `Nat`s.
-/

/-- Source position of a token: 1-based line and column, as delivered by the
lexer (`rply` token `source_pos`). -/
structure SrcPos where
  line : Nat
  col : Nat
deriving DecidableEq, Repr

/-- Source span stamped onto AST nodes by `set_boundaries` /
`set_quote_boundaries` (fields `start_line`, `start_column`, `end_line`,
`end_column` of `HyObject`). -/
structure SrcSpan where
  startLine : Nat
  startCol : Nat
  endLine : Nat
  endCol : Nat
deriving DecidableEq, Repr

/-- Token kinds: the terminal set of the grammar in `hy/lex/parser.py`
(`LPAREN, RPAREN, LBRACKET, RBRACKET, LCURLY, RCURLY, HLCURLY, QUOTE,
QUASIQUOTE, UNQUOTE, UNQUOTESPLICE, DISCARD, HASHSTARS, HASHOTHER,
IDENTIFIER, STRING, PARTIAL_STRING, BRACKETSTRING`).  `pstring` stands for
the PARTIAL_STRING terminal (an unterminated string literal) and `bstring`
for BRACKETSTRING. -/
inductive TokKind where
  | lparen | rparen | lbracket | rbracket | lcurly | rcurly | hlcurly
  | quoteTok | quasiquote | unquote | unquoteSplice
  | discard | hashstars | hashother
  | identifier | stringTok | pstring | bstring
deriving DecidableEq, Repr

/-- A lexer token: kind, raw text (`getstr()` / `.value`) and source
position (`source_pos.lineno`, `source_pos.colno`). -/
structure Tok where
  kind : TokKind
  value : String
  line : Nat
  col : Nat
deriving DecidableEq, Repr

mutual
/-- An AST node as built by the parser: a core value plus the optional
source span (Python objects get the span attributes assigned by the
`set_boundaries` decorators; nodes built without a decorator, such as the
`fraction` sub-nodes, have no span — modelled as `none`). -/
inductive SNode : Type where
  | mk (core : SCore) (span : Option SrcSpan)

/-- The value part of an AST node: one constructor per Hy model type
(`HyInteger, HyFloat, HyComplex, HyKeyword, HySymbol, HyString, HyBytes,
HyExpression, HyList, HyDict, HySet, HyCons`).  Float and complex literals
keep their source text: their numeric decoding is delegated to the host
float parser by the code and is out of scope here (spec section 9 leaves the
exact numeric grammar to the host). -/
inductive SCore : Type where
  | int (n : Int)
  | float (lit : String)
  | complex (lit : String)
  | keyword (name : String)
  | symbol (name : String)
  | str (content : String) (brackets : Option String)
  | bytes (content : String)
  | expression (items : List SNode)
  | hlist (items : List SNode)
  | hdict (items : List SNode)
  | hset (items : List SNode)
  | cons (head tail : SNode)
end

/-- Classified reader errors: `malformed` is `LexException(message, line,
column)`; `premature` is `PrematureEndOfInput` (incomplete input, no
meaningful position). -/
inductive LexError where
  | malformed (msg : String) (line col : Nat)
  | premature (msg : String)
deriving DecidableEq, Repr

/-- Split a character list at every occurrence of `c`, Python
`str.split(sep)` semantics: `"" ↦ [""]`, separators at the ends produce
empty parts. -/
def splitChar (c : Char) : List Char → List (List Char)
  | [] => [[]]
  | x :: xs =>
    if x = c then [] :: splitChar c xs
    else
      match splitChar c xs with
      | h :: t => (x :: h) :: t
      | [] => [[x]]

/-- Join character lists with the separator `c`, Python `sep.join(parts)`
semantics. -/
def intercalateChar (c : Char) : List (List Char) → List Char
  | [] => []
  | [p] => p
  | p :: rest => p ++ c :: intercalateChar c rest

/-- ASCII upper-casing of one character, modelling Python `str.upper` on the
identifier characters the mangler sees. -/
def upChar (c : Char) : Char :=
  if 'a' ≤ c ∧ c ≤ 'z' then Char.ofNat (c.toNat - 32) else c

/-- The value of one digit character in the given base, `none` if the
character is not a digit of that base. -/
def digitVal? (base : Nat) (c : Char) : Option Nat :=
  let v :=
    if '0' ≤ c ∧ c ≤ '9' then some (c.toNat - 48)
    else if 'a' ≤ c ∧ c ≤ 'f' then some (c.toNat - 87)
    else if 'A' ≤ c ∧ c ≤ 'F' then some (c.toNat - 55)
    else none
  v.bind (fun n => if n < base then some n else none)

/-- Tail of a digit string in base `base`: digits with single `_` digit
separators allowed between digits. -/
def digitsAux (base : Nat) (acc : Nat) : List Char → Option Nat
  | [] => some acc
  | '_' :: c :: rest =>
    (digitVal? base c).bind (fun d => digitsAux base (acc * base + d) rest)
  | c :: rest =>
    (digitVal? base c).bind (fun d => digitsAux base (acc * base + d) rest)

/-- A non-empty digit string in base `base`, with `_` separators between
digits. -/
def digitsVal? (base : Nat) : List Char → Option Nat
  | [] => none
  | c :: rest => (digitVal? base c).bind (fun d => digitsAux base d rest)

/-- Modelled from the spec: the host integer-literal parser used by
`HyInteger` (spec section 4.2 step 1: "arbitrary sign, standard base prefixes and
digit grouping as the host numeric-literal syntax defines"; `hy/models.py`
is not part of the sources).  Optional sign, optional `0x`/`0o`/`0b` base
prefix, then base digits with `_` separators. -/
def parseIntLit? (s : String) : Option Int :=
  let l := s.data
  let sgn : Bool × List Char :=
    match l with
    | '+' :: r => (false, r)
    | '-' :: r => (true, r)
    | _ => (false, l)
  let pref : Nat × List Char :=
    match sgn.2 with
    | '0' :: 'x' :: r => (16, r)
    | '0' :: 'X' :: r => (16, r)
    | '0' :: 'o' :: r => (8, r)
    | '0' :: 'O' :: r => (8, r)
    | '0' :: 'b' :: r => (2, r)
    | '0' :: 'B' :: r => (2, r)
    | r => (10, r)
  (digitsVal? pref.1 pref.2).map (fun n => if sgn.1 then -(n : Int) else (n : Int))

/-- Modelled from the spec: mantissa of a host float literal — digits with an
optional dot, at least one digit overall (`"1"`, `"1."`, `".5"`, `"1.5"`). -/
def mantissaOK (m : List Char) : Bool :=
  match splitChar '.' m with
  | [a] => !a.isEmpty && a.all Char.isDigit
  | [a, b] => (!a.isEmpty || !b.isEmpty) && a.all Char.isDigit && b.all Char.isDigit
  | _ => false

/-- Modelled from the spec: exponent part of a host float literal (after the
`e`): optional sign then non-empty digits. -/
def expOK (e : List Char) : Bool :=
  match e with
  | '+' :: d => !d.isEmpty && d.all Char.isDigit
  | '-' :: d => !d.isEmpty && d.all Char.isDigit
  | d => !d.isEmpty && d.all Char.isDigit

/-- Modelled from the spec: an unsigned host float literal: mantissa with
optional `e`-exponent. -/
def isUFloat (l : List Char) : Bool :=
  match l.span (fun c => !(c = 'e' || c = 'E')) with
  | (mant, []) => mantissaOK mant
  | (mant, _ :: ex) => mantissaOK mant && expOK ex

/-- Modelled from the spec: a signed host float literal (spec section 4.2 step 3;
`hy/models.py` delegates to the host `float` parser, not in the sources). -/
def isFloatLitL (l : List Char) : Bool :=
  match l with
  | '+' :: rest => isUFloat rest
  | '-' :: rest => isUFloat rest
  | _ => isUFloat l

/-- Signed host float literal on a `String`. -/
def isFloatLit (s : String) : Bool :=
  isFloatLitL s.data

/-- Is the character a `+` or `-` sign? -/
def isSignChar (c : Char) : Bool :=
  c = '+' || c = '-'

/-- Find the last position `i ≥ 1` holding a sign not preceded by `e`/`E`,
and split there (real part, sign-prefixed imaginary part).  Helper for the
complex-literal recognizer; `prev` is the character before the current
list. -/
def splitLastSignAux (prev : Char) : List Char → Option (List Char × List Char)
  | [] => none
  | c :: rest =>
    match splitLastSignAux c rest with
    | some (a, b) => some (c :: a, b)
    | none =>
      if isSignChar c && !(prev = 'e' || prev = 'E') then some ([], c :: rest)
      else none

/-- Split a complex-literal body at the sign separating real and imaginary
parts, if any. -/
def splitLastSign (l : List Char) : Option (List Char × List Char) :=
  match l with
  | [] => none
  | c :: rest => (splitLastSignAux c rest).map (fun p => (c :: p.1, p.2))

/-- Modelled from the spec: the host complex-literal parser (spec section 4.2 step
4: "real and/or imaginary parts, imaginary suffix required"; the code
delegates to the host `complex` parser, not in the sources).  A trailing
`j`/`J` after an optional real part, sign and imaginary coefficient; a plain
float also parses as complex (real-only). -/
def isComplexLit (s : String) : Bool :=
  let l := s.data
  match l.getLast? with
  | none => false
  | some last =>
    if last = 'j' || last = 'J' then
      let body := l.dropLast
      match splitLastSign body with
      | some (re, im) =>
        isFloatLitL re &&
          (match im with
           | [_] => true
           | _ :: coeff => isUFloat coeff
           | [] => false)
      | none =>
        body.isEmpty ||
          (match body with
           | [c] => isSignChar c
           | _ => false) ||
          isFloatLitL body
    else isFloatLitL l

/-- The identifier mangler `hy_symbol_mangle` from `hy/lex/parser.py`,
on character lists: four sequential rewrites of one dot-free segment
(earmuffs, hyphens, trailing question mark, trailing exclamation mark). -/
def mangleSeg (p : List Char) : List Char :=
  let p1 :=
    if p.head? = some '*' ∧ p.getLast? = some '*' ∧ p ≠ ['*'] ∧ p ≠ ['*', '*']
    then ((p.drop 1).dropLast).map upChar else p
  let p2 :=
    if '-' ∈ p1 ∧ p1 ≠ ['-']
    then p1.map (fun c => if c = '-' then '_' else c) else p1
  let p3 :=
    if p2.getLast? = some '?' ∧ p2 ≠ ['?']
    then 'i' :: 's' :: '_' :: p2.dropLast else p2
  let p4 :=
    if p3.getLast? = some '!' ∧ p3 ≠ ['!']
    then p3.dropLast ++ ['_', 'b', 'a', 'n', 'g'] else p3
  p4

/-- `hy_symbol_mangle` on strings. -/
def hy_symbol_mangle (p : String) : String :=
  String.mk (mangleSeg p.data)

/-- The symbol name built by `t_identifier`:
`".".join(hy_symbol_mangle(x) for x in obj.split("."))`. -/
def mangledJoin (obj : String) : String :=
  String.mk (intercalateChar '.' ((splitChar '.' obj.data).map mangleSeg))

/-- A span-less node, used as child of the `fraction` expression built by
`symbol_like` (Python builds these without span attributes). -/
def bare (c : SCore) : SNode :=
  SNode.mk c none

/-- The fraction attempt inside `symbol_like`: if the text contains a `/`,
split on every `/`; the two-variable unpacking succeeds only when there are
exactly two parts; both parts must parse as integers. -/
def fractionTry (obj : String) : Option SCore :=
  if '/' ∈ obj.data then
    match splitChar '/' obj.data with
    | [lhs, rhs] =>
      match parseIntLit? (String.mk lhs), parseIntLit? (String.mk rhs) with
      | some a, some b =>
        some (SCore.expression [bare (SCore.symbol "fraction"),
                                bare (SCore.int a), bare (SCore.int b)])
      | _, _ => none
    | _ => none
  else none

/-- `symbol_like` from `hy/lex/parser.py`: try to interpret the raw
identifier text as an integer, a fraction, a float, a complex number
(unless the text is exactly `j`), or a keyword (leading `:`, no dot),
in that order; `none` means it is a plain symbol. -/
def symbol_like (obj : String) : Option SCore :=
  match parseIntLit? obj with
  | some n => some (SCore.int n)
  | none =>
    match fractionTry obj with
    | some e => some e
    | none =>
      if isFloatLit obj then some (SCore.float obj)
      else if obj ≠ "j" ∧ isComplexLit obj then some (SCore.complex obj)
      else if obj.data.head? = some ':' ∧ '.' ∉ obj.data then
        some (SCore.keyword (String.mk obj.data.tail))
      else none

/-- The error message raised by `t_identifier` on a dotted token whose head
classifies as numeric or keyword. -/
def attrAccessMsg : String :=
  "Cannot access attribute on anything other than a name (in order to get attributes of expressions, use `(. <expression> <attr>)` or `(.<attr> <expression>)`)"

/-- The classification core of `t_identifier` from `hy/lex/parser.py`
(before the span is stamped; the error is a `LexException` whose position is
taken from the token by the caller): use `symbol_like` if it succeeds; raise
on a dotted token whose segment before the first dot classifies; otherwise
build a symbol by mangling every dot-separated segment and rejoining. -/
def t_identifier_core (obj : String) : Except String SCore :=
  match symbol_like obj with
  | some v => Except.ok v
  | none =>
    if '.' ∈ obj.data ∧
       (symbol_like (String.mk (obj.data.takeWhile (fun c => c ≠ '.')))).isSome = true then
      Except.error attrAccessMsg
    else
      Except.ok (SCore.symbol (mangledJoin obj))

/-- Spec wording, section 4.1 rule 1: "If the segment starts and ends with
a star and is not exactly one or two stars: strip both asterisks and
upper-case the remainder." -/
def mangleSpecStep1 (p : List Char) : List Char :=
  if p.head? = some '*' ∧ p.getLast? = some '*' ∧ p ≠ ['*'] ∧ p ≠ ['*', '*']
  then ((p.drop 1).dropLast).map upChar else p

/-- Spec wording, section 4.1 rule 2: "If the segment contains a hyphen and is
not exactly a hyphen: replace every hyphen with an underscore." -/
def mangleSpecStep2 (p : List Char) : List Char :=
  if '-' ∈ p ∧ p ≠ ['-']
  then p.map (fun c => if c = '-' then '_' else c) else p

/-- Spec wording, section 4.1 rule 3: "If the segment ends with a question mark
and is not exactly a question mark: remove it and prepend `is_`." -/
def mangleSpecStep3 (p : List Char) : List Char :=
  if p.getLast? = some '?' ∧ p ≠ ['?']
  then 'i' :: 's' :: '_' :: p.dropLast else p

/-- Spec wording, section 4.1 rule 4: "If the segment ends with an exclamation
mark and is not exactly an exclamation mark: remove it and append `_bang`." -/
def mangleSpecStep4 (p : List Char) : List Char :=
  if p.getLast? = some '!' ∧ p ≠ ['!']
  then p.dropLast ++ ['_', 'b', 'a', 'n', 'g'] else p

/-- The mangler as the spec words it: the four rules in this fixed order,
each applied to the output of the previous. -/
def mangleSpecSeg (p : List Char) : List Char :=
  mangleSpecStep4 (mangleSpecStep3 (mangleSpecStep2 (mangleSpecStep1 p)))

/-- Spec wording of the fraction step (section 4.2 step 2 / claim C1 step 2): the
text contains exactly one slash and both sides parse as integers. -/
def fractionSpecTry (obj : String) : Option SCore :=
  if obj.data.count '/' = 1 then
    match splitChar '/' obj.data with
    | [lhs, rhs] =>
      match parseIntLit? (String.mk lhs), parseIntLit? (String.mk rhs) with
      | some a, some b =>
        some (SCore.expression [bare (SCore.symbol "fraction"),
                                bare (SCore.int a), bare (SCore.int b)])
      | _, _ => none
    | _ => none
  else none

/-- Steps 1-5 of the classification as claim C1 words them: integer, then
fraction (exactly one slash, both sides integers), then float, then complex
unless the text is exactly the imaginary-unit letter, then keyword (leading
colon, no dot). -/
def classifySpecC1 (t : String) : Option SCore :=
  match parseIntLit? t with
  | some n => some (SCore.int n)
  | none =>
    match fractionSpecTry t with
    | some e => some e
    | none =>
      if isFloatLit t then some (SCore.float t)
      else if t ≠ "j" ∧ isComplexLit t then some (SCore.complex t)
      else if t.data.head? = some ':' ∧ '.' ∉ t.data then
        some (SCore.keyword (String.mk t.data.tail))
      else none

/-- Step 6 of the classification as claim C1 words it: when steps 1-5 fail,
the text is a Symbol whose dot-separated segments are each mangled and
rejoined with a dot. -/
def classifyFullC1 (t : String) : SCore :=
  match classifySpecC1 t with
  | some v => v
  | none =>
    SCore.symbol (String.mk (intercalateChar '.'
      ((splitChar '.' t.data).map mangleSpecSeg)))

/-- Is this node a bare dot: a `HySymbol` equal to `"."` (span ignored, as
Python compares by string value)? -/
def isDotNode (n : SNode) : Bool :=
  match n with
  | SNode.mk (SCore.symbol s) _ => s = "."
  | _ => false

/-- Start line of a node's span; parser-produced nodes always carry a span
(Python reads `start_line` off the object). -/
def startLineOf (n : SNode) : Nat :=
  match n with
  | SNode.mk _ (some sp) => sp.startLine
  | SNode.mk _ none => 0

/-- Start column of a node's span. -/
def startColOf (n : SNode) : Nat :=
  match n with
  | SNode.mk _ (some sp) => sp.startCol
  | SNode.mk _ none => 0

/-- `reject_spurious_dots` from `hy/lex/parser.py` on one concatenated item
list: the first bare `.` symbol found produces a "Malformed dotted list"
error at its start position. -/
def rejectDots (l : List SNode) : Option LexError :=
  (l.find? isDotNode).map
    (fun n => LexError.malformed "Malformed dotted list" (startLineOf n) (startColOf n))

/-- The span assigned by `set_boundaries` when the production starts and
ends with two distinct tokens (start of the first, start of the last). -/
def boundSpan (lp rp : Tok) : SrcSpan :=
  SrcSpan.mk lp.line lp.col rp.line rp.col

/-- Stamp a core with the two-token span (`set_boundaries`, multi-token
case). -/
def mkBound (lp rp : Tok) (c : SCore) : SNode :=
  SNode.mk c (some (boundSpan lp rp))

/-- Does the content list have a dotted tail: at least 3 items and the
second-to-last item is the bare symbol `.`
(`len(cont) >= 3 and isinstance(cont[-2], HySymbol) and cont[-2] == "."`)? -/
def isDottedTail (cont : List SNode) : Bool :=
  decide (3 ≤ cont.length) &&
    (match cont.get? (cont.length - 2) with
     | some n => isDotNode n
     | none => false)

/-- The `paren` production from `hy/lex/parser.py` applied to the already
parsed contents, including the recursive dotted-list construction; `lp` and
`rp` are the `LPAREN`/`RPAREN` tokens used by `set_boundaries` (every
recursive call stamps its result with the same outer span, as the Python
recursion passes the same bracketing tokens). -/
def parenNode (lp rp : Tok) : List SNode → Except LexError SNode
  | a :: b :: c :: rest =>
    -- at least three items: the dotted-tail test can fire
    if isDottedTail (a :: b :: c :: rest) then
      match rejectDots ((a :: b :: c :: rest).take ((a :: b :: c :: rest).length - 2) ++
                        (a :: b :: c :: rest).drop ((a :: b :: c :: rest).length - 1)) with
      | some e => Except.error e
      | none =>
        if rest.isEmpty then Except.ok (mkBound lp rp (SCore.cons a c))
        else
          match parenNode lp rp (b :: c :: rest) with
          | Except.ok d => Except.ok (mkBound lp rp (SCore.cons a d))
          | Except.error e => Except.error e
    else
      match rejectDots (b :: c :: rest) with
      | some e => Except.error e
      | none => Except.ok (mkBound lp rp (SCore.expression (a :: b :: c :: rest)))
  | cont =>
    -- fewer than three items: `len(cont) >= 3` fails, only the tail check runs
    match rejectDots cont.tail with
    | some e => Except.error e
    | none => Except.ok (mkBound lp rp (SCore.expression cont))

/-- The span assigned by `set_boundaries` for a single-token production:
end column is start column plus the token text length. -/
def singleSpan (t : Tok) : SrcSpan :=
  SrcSpan.mk t.line t.col t.line (t.col + t.value.length)

/-- Stamp a core with a single token's span (`set_boundaries`, single-token
case). -/
def mkSingle (t : Tok) (c : SCore) : SNode :=
  SNode.mk c (some (singleSpan t))

/-- End line of a node's span (used by `set_quote_boundaries`). -/
def endLineOf (n : SNode) : Nat :=
  match n with
  | SNode.mk _ (some sp) => sp.endLine
  | SNode.mk _ none => 0

/-- End column of a node's span. -/
def endColOf (n : SNode) : Nat :=
  match n with
  | SNode.mk _ (some sp) => sp.endCol
  | SNode.mk _ none => 0

/-- `set_quote_boundaries`: start at the marker token, end at the wrapped
child's end. -/
def mkQuoteBound (t : Tok) (child : SNode) (c : SCore) : SNode :=
  SNode.mk c (some (SrcSpan.mk t.line t.col (endLineOf child) (endColOf child)))

/-- Unescape the content of a plain string literal.  Modelled from the spec
(section 4.4, String terminal): the code re-delimits the raw token text and
hands it to the host literal evaluator; here the common escape sequences are
decoded and unknown escapes are kept verbatim. -/
def unescape : List Char → List Char
  | '\\' :: 'n' :: r => '\n' :: unescape r
  | '\\' :: 't' :: r => '\t' :: unescape r
  | '\\' :: 'r' :: r => '\r' :: unescape r
  | '\\' :: '\\' :: r => '\\' :: unescape r
  | '\\' :: '"' :: r => '"' :: unescape r
  | c :: r => c :: unescape r
  | [] => []

/-- `t_string` core: strip the optional `b` prefix and the surrounding
quotes from the raw token text, decode escapes, and build a `HyString` or
`HyBytes` depending on the prefix. -/
def t_string_core (v : String) : SCore :=
  match v.data with
  | 'b' :: rest => SCore.bytes (String.mk (unescape ((rest.drop 1).dropLast)))
  | l => SCore.str (String.mk (unescape ((l.drop 1).dropLast))) none

/-- Delimiter of a raw BRACKETSTRING token (`#[delim[content]delim]`).
Modelled from the spec: the lexer regex that captures it is outside the
sources. -/
def bracketDelim (v : String) : String :=
  String.mk ((v.data.drop 2).takeWhile (fun c => c ≠ '['))

/-- Content of a raw BRACKETSTRING token, taken verbatim between the inner
brackets.  Modelled from the spec. -/
def bracketContent (v : String) : String :=
  let d := (bracketDelim v).length
  String.mk (((v.data.drop (3 + d)).reverse.drop (2 + d)).reverse)

/-- `t_bracket_string`: a `HyString` recording the delimiter text. -/
def t_bracket_string_core (v : String) : SCore :=
  SCore.str (bracketContent v) (some (bracketDelim v))

/-- `t_identifier` with span stamping and error position attached from the
token (`LexException(..., lineno, colno)`). -/
def t_identifier (t : Tok) : Except LexError SNode :=
  match t_identifier_core t.value with
  | Except.error msg => Except.error (LexError.malformed msg t.line t.col)
  | Except.ok c => Except.ok (mkSingle t c)

/-- Does this token kind close a bracketed form? -/
def isCloser (k : TokKind) : Bool :=
  match k with
  | TokKind.rparen => true
  | TokKind.rbracket => true
  | TokKind.rcurly => true
  | _ => false

/-- Terminal name used in the `rply` error message. -/
def kindName (k : TokKind) : String :=
  match k with
  | TokKind.lparen => "LPAREN"
  | TokKind.rparen => "RPAREN"
  | TokKind.lbracket => "LBRACKET"
  | TokKind.rbracket => "RBRACKET"
  | TokKind.lcurly => "LCURLY"
  | TokKind.rcurly => "RCURLY"
  | TokKind.hlcurly => "HLCURLY"
  | TokKind.quoteTok => "QUOTE"
  | TokKind.quasiquote => "QUASIQUOTE"
  | TokKind.unquote => "UNQUOTE"
  | TokKind.unquoteSplice => "UNQUOTESPLICE"
  | TokKind.discard => "DISCARD"
  | TokKind.hashstars => "HASHSTARS"
  | TokKind.hashother => "HASHOTHER"
  | TokKind.identifier => "IDENTIFIER"
  | TokKind.stringTok => "STRING"
  | TokKind.pstring => "PARTIAL_STRING"
  | TokKind.bstring => "BRACKETSTRING"

/-- The malformed-input error produced by the `rply` error handler for an
unexpected token. -/
def unexpectedTok (t : Tok) : LexError :=
  LexError.malformed ("Ran into a " ++ kindName t.kind ++ " where it was not expected.")
    t.line t.col

/-- The incomplete-input error. -/
def prematureEnd : LexError :=
  LexError.premature "Premature end of input"

/-- The message raised by `term_hashstars` on a star count other than 1
or 2. -/
def tooManyStarsMsg : String :=
  "Too many stars in `#*` construct (if you want to unpack a symbol beginning with a star, separate it with whitespace)"

/-- Finish a quote-family production `MARKER term` from the parse result of
the following term: wrap it and stamp `set_quote_boundaries`. -/
def finishQuote (t : Tok) (sym : String) :
    Except LexError (SNode × List Tok) → Except LexError (SNode × List Tok)
  | Except.error e => Except.error e
  | Except.ok (v, r) =>
    Except.ok (mkQuoteBound t v (SCore.expression [bare (SCore.symbol sym), v]), r)

/-- Finish a bracketed form from the parse result of its contents: require
the matching closer and hand the items to the builder. -/
def finishBracketed (opener : Tok) (closerKind : TokKind)
    (build : Tok → Tok → List SNode → Except LexError SNode) :
    Except LexError (List SNode × List Tok) → Except LexError (SNode × List Tok)
  | Except.error e => Except.error e
  | Except.ok (items, r) =>
    match r with
    | [] => Except.error prematureEnd
    | c :: r2 =>
      if c.kind = closerKind then
        match build opener c items with
        | Except.ok v => Except.ok (v, r2)
        | Except.error e => Except.error e
      else Except.error (unexpectedTok c)

/-- Finish a `HASHSTARS term` production from the parse result of the
following term: count the stars in the marker text after the `#`; one star
wraps in `unpack_iterable`, two in `unpack_mapping`, anything else is a
malformed-input error at the marker position. -/
def finishHashstars (t : Tok) :
    Except LexError (SNode × List Tok) → Except LexError (SNode × List Tok)
  | Except.error e => Except.error e
  | Except.ok (v, r) =>
    let stars := (t.value.drop 1).length
    if stars = 1 then
      Except.ok (mkQuoteBound t v
        (SCore.expression [bare (SCore.symbol "unpack_iterable"), v]), r)
    else if stars = 2 then
      Except.ok (mkQuoteBound t v
        (SCore.expression [bare (SCore.symbol "unpack_mapping"), v]), r)
    else Except.error (LexError.malformed tooManyStarsMsg t.line t.col)

/-- Finish a `HASHOTHER term` production: wrap the following term in a
`dispatch_tag_macro` call with the marker text after the `#` as a string
literal. -/
def finishHashother (t : Tok) :
    Except LexError (SNode × List Tok) → Except LexError (SNode × List Tok)
  | Except.error e => Except.error e
  | Except.ok (v, r) =>
    Except.ok (mkQuoteBound t v
      (SCore.expression [bare (SCore.symbol "dispatch_tag_macro"),
                         bare (SCore.str (t.value.drop 1) none), v]), r)

mutual
/-- One `term` of the grammar: identifier, string, bracketed form, quote
family, discard (`DISCARD term term` evaluates to its second term), splice
markers and tag macros.  Fuelled recursion; on success returns the node and
the unconsumed tokens. -/
def parseTerm : Nat → List Tok → Except LexError (SNode × List Tok)
  | 0, _ => Except.error (LexError.malformed "fuel exhausted" 0 0)
  | _ + 1, [] => Except.error prematureEnd
  | n + 1, t :: rest =>
    match t.kind with
    | TokKind.identifier =>
      match t_identifier t with
      | Except.ok v => Except.ok (v, rest)
      | Except.error e => Except.error e
    | TokKind.stringTok => Except.ok (mkSingle t (t_string_core t.value), rest)
    | TokKind.pstring => Except.error prematureEnd
    | TokKind.bstring => Except.ok (mkSingle t (t_bracket_string_core t.value), rest)
    | TokKind.lparen => finishBracketed t TokKind.rparen parenNode (parseSeq n rest)
    | TokKind.lbracket =>
      finishBracketed t TokKind.rbracket
        (fun lp rp items => Except.ok (mkBound lp rp (SCore.hlist items))) (parseSeq n rest)
    | TokKind.lcurly =>
      finishBracketed t TokKind.rcurly
        (fun lp rp items => Except.ok (mkBound lp rp (SCore.hdict items))) (parseSeq n rest)
    | TokKind.hlcurly =>
      finishBracketed t TokKind.rcurly
        (fun lp rp items => Except.ok (mkBound lp rp (SCore.hset items))) (parseSeq n rest)
    | TokKind.quoteTok => finishQuote t "quote" (parseTerm n rest)
    | TokKind.quasiquote => finishQuote t "quasiquote" (parseTerm n rest)
    | TokKind.unquote => finishQuote t "unquote" (parseTerm n rest)
    | TokKind.unquoteSplice => finishQuote t "unquote_splice" (parseTerm n rest)
    | TokKind.discard =>
      match parseTerm n rest with
      | Except.error e => Except.error e
      | Except.ok (_, r1) =>
        match parseTerm n r1 with
        | Except.error e => Except.error e
        | Except.ok (v, r2) => Except.ok (v, r2)
    | TokKind.hashstars => finishHashstars t (parseTerm n rest)
    | TokKind.hashother => finishHashother t (parseTerm n rest)
    | _ => Except.error (unexpectedTok t)

/-- `list_contents`: a maximal sequence of terms, stopping at a closing
token or the end of the stream.  A `DISCARD` opening either reduces as
`term : DISCARD term term` (when the whole of `DISCARD term term` parses as
one term) or, when the remainder consists entirely of discard/term pairs, as
`list_contents : DISCARD term discarded_list_contents`, contributing no
elements. -/
def parseSeq : Nat → List Tok → Except LexError (List SNode × List Tok)
  | 0, _ => Except.error (LexError.malformed "fuel exhausted" 0 0)
  | _ + 1, [] => Except.ok ([], [])
  | n + 1, t :: rest =>
    if isCloser t.kind then Except.ok ([], t :: rest)
    else if t.kind = TokKind.discard then
      match parseTerm n (t :: rest) with
      | Except.ok (v, r) =>
        match parseSeq n r with
        | Except.error e => Except.error e
        | Except.ok (vs, r2) => Except.ok (v :: vs, r2)
      | Except.error _ =>
        match parseDiscards n (t :: rest) with
        | Except.error e => Except.error e
        | Except.ok r => Except.ok ([], r)
    else
      match parseTerm n (t :: rest) with
      | Except.error e => Except.error e
      | Except.ok (v, r) =>
        match parseSeq n r with
        | Except.error e => Except.error e
        | Except.ok (vs, r2) => Except.ok (v :: vs, r2)

/-- `discarded_list_contents`: zero or more `DISCARD term` pairs, each
contributing nothing. -/
def parseDiscards : Nat → List Tok → Except LexError (List Tok)
  | 0, _ => Except.error (LexError.malformed "fuel exhausted" 0 0)
  | _ + 1, [] => Except.ok []
  | n + 1, t :: rest =>
    if t.kind = TokKind.discard then
      match parseTerm n rest with
      | Except.error e => Except.error e
      | Except.ok (_, r) => parseDiscards n r
    else Except.ok (t :: rest)
end

/-- Fuel sufficient for a full parse: at most two calls per token plus the
closing steps. -/
def fuelFor (ts : List Tok) : Nat :=
  2 * ts.length + 8

/-- The parser entry point (`main : list_contents | $end`): the whole token
stream to a list of top-level forms, or a classified error; a leftover
closing token is the `rply` unexpected-token error. -/
def hyParse (ts : List Tok) : Except LexError (List SNode) :=
  match parseSeq (fuelFor ts) ts with
  | Except.error e => Except.error e
  | Except.ok (vs, []) => Except.ok vs
  | Except.ok (_, t :: _) => Except.error (unexpectedTok t)

/-- A span-free AST node, for comparing parses of different source texts
structurally (spans necessarily differ between texts). -/
inductive HyNode : Type where
  | int (n : Int)
  | float (lit : String)
  | complex (lit : String)
  | keyword (name : String)
  | symbol (name : String)
  | str (content : String) (brackets : Option String)
  | bytes (content : String)
  | expression (items : List HyNode)
  | hlist (items : List HyNode)
  | hdict (items : List HyNode)
  | hset (items : List HyNode)
  | cons (head tail : HyNode)
deriving Repr

mutual
/-- Erase all spans from a node. -/
def eraseSpan : SNode → HyNode
  | SNode.mk c _ => eraseCore c

/-- Erase all spans from a node core. -/
def eraseCore : SCore → HyNode
  | SCore.int n => HyNode.int n
  | SCore.float l => HyNode.float l
  | SCore.complex l => HyNode.complex l
  | SCore.keyword s => HyNode.keyword s
  | SCore.symbol s => HyNode.symbol s
  | SCore.str s b => HyNode.str s b
  | SCore.bytes s => HyNode.bytes s
  | SCore.expression items => HyNode.expression (eraseList items)
  | SCore.hlist items => HyNode.hlist (eraseList items)
  | SCore.hdict items => HyNode.hdict (eraseList items)
  | SCore.hset items => HyNode.hset (eraseList items)
  | SCore.cons a d => HyNode.cons (eraseSpan a) (eraseSpan d)

/-- Erase all spans from a node list. -/
def eraseList : List SNode → List HyNode
  | [] => []
  | x :: xs => eraseSpan x :: eraseList xs
end

/-- Shorthand for comparing two parses modulo spans. -/
def parseShape (ts : List Tok) : Except LexError (List HyNode) :=
  match hyParse ts with
  | Except.error e => Except.error e
  | Except.ok vs => Except.ok (eraseList vs)

/-- Shorthand: an identifier token. -/
def idTok (v : String) (line col : Nat) : Tok :=
  Tok.mk TokKind.identifier v line col

/-- Shorthand: a punctuation token. -/
def pTok (k : TokKind) (v : String) (line col : Nat) : Tok :=
  Tok.mk k v line col

example : hyParse [] = Except.ok [] := by rfl
example :
    hyParse [pTok TokKind.lparen "(" 1 1, pTok TokKind.rparen ")" 1 2] =
      Except.ok [SNode.mk (SCore.expression []) (some (SrcSpan.mk 1 1 1 2))] := by rfl
example :
    hyParse [pTok TokKind.lparen "(" 1 1, idTok "a" 1 2, idTok "." 1 4,
             idTok "b" 1 6, pTok TokKind.rparen ")" 1 7] =
      Except.ok [SNode.mk
        (SCore.cons (SNode.mk (SCore.symbol "a") (some (SrcSpan.mk 1 2 1 3)))
                    (SNode.mk (SCore.symbol "b") (some (SrcSpan.mk 1 6 1 7))))
        (some (SrcSpan.mk 1 1 1 7))] := by rfl
example :
    parseShape [pTok TokKind.lparen "(" 1 1, pTok TokKind.discard "#_" 1 2,
                idTok "a" 1 4, idTok "b" 1 6, pTok TokKind.rparen ")" 1 7] =
      Except.ok [HyNode.expression [HyNode.symbol "b"]] := by rfl
example :
    parseShape [pTok TokKind.lparen "(" 1 1, pTok TokKind.discard "#_" 1 2,
                idTok "a" 1 4, pTok TokKind.discard "#_" 1 6, idTok "b" 1 8,
                pTok TokKind.rparen ")" 1 9] =
      Except.ok [HyNode.expression []] := by rfl
example :
    hyParse [pTok TokKind.lparen "(" 1 1] = Except.error prematureEnd := by rfl
example :
    hyParse [pTok TokKind.pstring "\"abc" 1 1] = Except.error prematureEnd := by rfl
example :
    parseShape [pTok TokKind.hashstars "#*" 1 1, idTok "x" 1 3] =
      Except.ok [HyNode.expression [HyNode.symbol "unpack_iterable",
                                    HyNode.symbol "x"]] := by rfl
example :
    hyParse [pTok TokKind.hashstars "#***" 1 1, idTok "x" 1 5] =
      Except.error (LexError.malformed tooManyStarsMsg 1 1) := by rfl
example :
    parseShape [pTok TokKind.quoteTok "'" 1 1, idTok "x" 1 2] =
      Except.ok [HyNode.expression [HyNode.symbol "quote", HyNode.symbol "x"]] := by rfl

example : parseIntLit? "5" = some 5 := by decide
example : parseIntLit? "-0x1f" = some (-31) := by decide
example : parseIntLit? "1_000" = some 1000 := by decide
example : parseIntLit? "" = none := by decide
example : parseIntLit? "5.attr" = none := by decide
example : isFloatLit "1.5" = true := by decide
example : isFloatLit "1.e5" = true := by decide
example : isFloatLit "." = false := by decide
example : isFloatLit "5" = true := by decide
example : isComplexLit "j" = true := by decide
example : isComplexLit "1+2j" = true := by decide
example : isComplexLit "1e+3j" = true := by decide
example : isComplexLit "+-j" = false := by decide
example : symbol_like "1/2" =
    some (SCore.expression [bare (SCore.symbol "fraction"),
                            bare (SCore.int 1), bare (SCore.int 2)]) := by rfl
example : symbol_like "j" = none := by rfl
example : symbol_like ":foo" = some (SCore.keyword "foo") := by rfl
example : symbol_like ":" = some (SCore.keyword "") := by rfl
example : symbol_like ":a.b" = none := by rfl
example : t_identifier_core "5.attr" = Except.error attrAccessMsg := by rfl
example : t_identifier_core "1.5" = Except.ok (SCore.float "1.5") := by rfl
example : t_identifier_core "foo-bar.baz?" =
    Except.ok (SCore.symbol "foo_bar.is_baz") := by rfl
example : t_identifier_core "*foo*" = Except.ok (SCore.symbol "FOO") := by rfl
example : t_identifier_core "." = Except.ok (SCore.symbol ".") := by rfl
example : t_identifier_core "x.-" = Except.ok (SCore.symbol "x.-") := by rfl
example : hy_symbol_mangle "spam!" = "spam_bang" := by rfl

theorem splitChar_length (c : Char) (l : List Char) :
    (splitChar c l).length = l.count c + 1 := by
  induction l with
  | nil => rfl
  | cons x xs ih =>
    by_cases h : x = c
    · subst h
      simp [splitChar, List.count_cons, ih]
    · simp only [splitChar, if_neg h]
      cases hs : splitChar c xs with
      | nil => rw [hs] at ih; simp at ih
      | cons a t =>
        rw [hs] at ih
        simp only [List.length_cons] at ih ⊢
        simp [List.count_cons, h]
        omega

theorem fractionTry_eq_spec (t : String) : fractionTry t = fractionSpecTry t := by
  unfold fractionTry fractionSpecTry
  have hlen := splitChar_length '/' t.data
  by_cases h : t.data.count '/' = 1
  · have hm : '/' ∈ t.data := by
      by_contra hmem
      rw [← List.count_eq_zero] at hmem
      omega
    rw [if_pos hm, if_pos h]
  · rw [if_neg h]
    by_cases hm : '/' ∈ t.data
    · rw [if_pos hm]
      have h1 : t.data.count '/' ≠ 0 := by
        intro h0
        exact (List.count_eq_zero.mp h0) hm
      have h2 : (splitChar '/' t.data).length ≠ 2 := by omega
      cases hs : splitChar '/' t.data with
      | nil => rfl
      | cons a t2 =>
        cases t2 with
        | nil => rfl
        | cons b t3 =>
          cases t3 with
          | nil => exact absurd (by rw [hs]; rfl) h2
          | cons d t4 => rfl
    · rw [if_neg hm]

theorem symbol_like_eq_spec (t : String) : symbol_like t = classifySpecC1 t := by
  unfold symbol_like classifySpecC1
  rw [fractionTry_eq_spec]

theorem mangleSeg_eq_spec (l : List Char) : mangleSeg l = mangleSpecSeg l := rfl

theorem dash_step2 (m : List Char) :
    mangleSpecStep2 m = ['-'] ∨ '-' ∉ mangleSpecStep2 m := by
  unfold mangleSpecStep2
  by_cases h : '-' ∈ m ∧ m ≠ ['-']
  · right
    rw [if_pos h]
    intro hmem
    obtain ⟨x, hx, hfx⟩ := List.mem_map.mp hmem
    by_cases hxd : x = '-'
    · rw [if_pos hxd] at hfx
      exact absurd hfx (by decide)
    · rw [if_neg hxd] at hfx
      exact hxd hfx
  · rw [if_neg h]
    push_neg at h
    by_cases hm : '-' ∈ m
    · exact Or.inl (h hm)
    · exact Or.inr hm

theorem dash_step3 (m : List Char) (h : m = ['-'] ∨ '-' ∉ m) :
    mangleSpecStep3 m = ['-'] ∨ '-' ∉ mangleSpecStep3 m := by
  unfold mangleSpecStep3
  rcases h with h | h
  · subst h
    rw [if_neg (by decide)]
    exact Or.inl rfl
  · by_cases hg : m.getLast? = some '?' ∧ m ≠ ['?']
    · rw [if_pos hg]
      right
      intro hmem
      simp only [List.mem_cons] at hmem
      rcases hmem with h1 | h1 | h1 | h1
      · exact absurd h1 (by decide)
      · exact absurd h1 (by decide)
      · exact absurd h1 (by decide)
      · exact h (List.dropLast_subset m h1)
    · rw [if_neg hg]
      exact Or.inr h

theorem dash_step4 (m : List Char) (h : m = ['-'] ∨ '-' ∉ m) :
    mangleSpecStep4 m = ['-'] ∨ '-' ∉ mangleSpecStep4 m := by
  unfold mangleSpecStep4
  rcases h with h | h
  · subst h
    rw [if_neg (by decide)]
    exact Or.inl rfl
  · by_cases hg : m.getLast? = some '!' ∧ m ≠ ['!']
    · rw [if_pos hg]
      right
      intro hmem
      rcases List.mem_append.mp hmem with h1 | h1
      · exact h (List.dropLast_subset m h1)
      · simp at h1
    · rw [if_neg hg]
      exact Or.inr h

theorem mangleSeg_dash (l : List Char) :
    mangleSeg l = ['-'] ∨ '-' ∉ mangleSeg l := by
  rw [mangleSeg_eq_spec]
  exact dash_step4 _ (dash_step3 _ (dash_step2 _))

theorem fractionTry_not_symbol (t : String) (e : SCore) (h : fractionTry t = some e) :
    ∀ s, e ≠ SCore.symbol s := by
  intro s
  unfold fractionTry at h
  split at h
  · split at h
    · split at h
      · injection h with h'
        subst h'
        intro hc
        cases hc
      · exact absurd h (by simp)
    · exact absurd h (by simp)
  · exact absurd h (by simp)

theorem symbol_like_not_symbol (t : String) (w : SCore) (h : symbol_like t = some w) :
    ∀ s, w ≠ SCore.symbol s := by
  intro s
  unfold symbol_like at h
  split at h
  · injection h with h'
    subst h'
    intro hc
    cases hc
  · split at h
    · rename_i e heq
      injection h with h'
      subst h'
      exact fractionTry_not_symbol t e heq s
    · split at h
      · injection h with h'
        subst h'
        intro hc
        cases hc
      · split at h
        · injection h with h'
          subst h'
          intro hc
          cases hc
        · split at h
          · injection h with h'
            subst h'
            intro hc
            cases hc
          · exact absurd h (by simp)

/-- C1: for every identifier-shaped token text, classification attempts the
interpretations in the fixed order of the claim and returns the first
success: `symbol_like` agrees with the spec chain of steps 1-5 (integer,
fraction with exactly one slash, float, complex unless the text is exactly
`j`, keyword); whenever `t_identifier` returns a node it is the node the
full six-step chain prescribes (step 6: a Symbol of mangled dot-separated
segments); and every success of steps 1-5 is returned as such. -/
theorem c1_classification_order (t : String) :
    symbol_like t = classifySpecC1 t ∧
    (∀ v, t_identifier_core t = Except.ok v → v = classifyFullC1 t) ∧
    (∀ v, symbol_like t = some v → t_identifier_core t = Except.ok v) := by
  refine ⟨symbol_like_eq_spec t, ?_, ?_⟩
  · intro v h
    unfold t_identifier_core at h
    unfold classifyFullC1
    rw [← symbol_like_eq_spec]
    split at h
    · injection h with h'
      exact h'.symm
    · split at h
      · exact absurd h (by simp)
      · injection h with h'
        rw [← h']
        rfl
  · intro v h
    unfold t_identifier_core
    rw [h]

/-- C1 witness: the classifier on the concrete text `1/2` yields the
`fraction` expression. -/
theorem c1_classification_order_witness :
    t_identifier_core "1/2" =
      Except.ok (SCore.expression [bare (SCore.symbol "fraction"),
                                   bare (SCore.int 1), bare (SCore.int 2)]) :=
  (c1_classification_order "1/2").2.2 _ rfl

/-- C5: the mangler performs exactly the four spec rules in the fixed order
(earmuffs, hyphen replacement, trailing question mark, trailing exclamation
mark), each on the output of the previous, and the symbol name is built by
mangling each dot-separated segment independently and rejoining with a
dot. -/
theorem c5_mangle_rules :
    (∀ p : String, hy_symbol_mangle p = String.mk (mangleSpecSeg p.data)) ∧
    (∀ obj : String, mangledJoin obj =
      String.mk (intercalateChar '.' ((splitChar '.' obj.data).map mangleSpecSeg))) := by
  constructor
  · intro p
    rfl
  · intro obj
    rfl

theorem isDotNode_dot (s : Option SrcSpan) :
    isDotNode (SNode.mk (SCore.symbol ".") s) = true := by
  simp [isDotNode]

/-- C2: a parenthesized form whose second-to-last of at least three items is
the bare symbol `.` builds a Cons: `(a . b)` gives `Cons(a, b)`,
`(a b . c)` gives `Cons(a, Cons(b, c))` by the recursive rule, and a form
with two separator dots such as `(a . b . c)` is a malformed-input error. -/
theorem c2_dotted_list_cons (lp rp : Tok) (a b c : SNode) (s1 s2 : Option SrcSpan)
    (ha : isDotNode a = false) (hb : isDotNode b = false) (hc : isDotNode c = false) :
    parenNode lp rp [a, SNode.mk (SCore.symbol ".") s1, b] =
      Except.ok (mkBound lp rp (SCore.cons a b)) ∧
    parenNode lp rp [a, b, SNode.mk (SCore.symbol ".") s1, c] =
      Except.ok (mkBound lp rp (SCore.cons a (mkBound lp rp (SCore.cons b c)))) ∧
    parenNode lp rp [a, SNode.mk (SCore.symbol ".") s1, b,
                     SNode.mk (SCore.symbol ".") s2, c] =
      Except.error (LexError.malformed "Malformed dotted list"
        (startLineOf (SNode.mk (SCore.symbol ".") s1))
        (startColOf (SNode.mk (SCore.symbol ".") s1))) := by
  refine ⟨?_, ?_, ?_⟩
  · simp [parenNode, isDottedTail, rejectDots, List.find?, ha, hb, isDotNode_dot]
  · simp [parenNode, isDottedTail, rejectDots, List.find?, ha, hb, hc, isDotNode_dot]
  · simp [parenNode, isDottedTail, rejectDots, List.find?, ha, hb, hc, isDotNode_dot]

/-- C2 witness: concrete two-item and three-item dotted lists and the
double-dot error, with concrete symbols and spans. -/
theorem c2_dotted_list_cons_witness :
    parenNode (pTok TokKind.lparen "(" 1 1) (pTok TokKind.rparen ")" 1 9)
        [SNode.mk (SCore.symbol "a") (some (SrcSpan.mk 1 2 1 3)),
         SNode.mk (SCore.symbol ".") (some (SrcSpan.mk 1 4 1 5)),
         SNode.mk (SCore.symbol "b") (some (SrcSpan.mk 1 6 1 7))] =
      Except.ok (mkBound (pTok TokKind.lparen "(" 1 1) (pTok TokKind.rparen ")" 1 9)
        (SCore.cons (SNode.mk (SCore.symbol "a") (some (SrcSpan.mk 1 2 1 3)))
                    (SNode.mk (SCore.symbol "b") (some (SrcSpan.mk 1 6 1 7))))) ∧
    parenNode (pTok TokKind.lparen "(" 1 1) (pTok TokKind.rparen ")" 1 9)
        [SNode.mk (SCore.symbol "a") (some (SrcSpan.mk 1 2 1 3)),
         SNode.mk (SCore.symbol "b") (some (SrcSpan.mk 1 4 1 5)),
         SNode.mk (SCore.symbol ".") (some (SrcSpan.mk 1 6 1 7)),
         SNode.mk (SCore.symbol "c") (some (SrcSpan.mk 1 8 1 9))] =
      Except.ok (mkBound (pTok TokKind.lparen "(" 1 1) (pTok TokKind.rparen ")" 1 9)
        (SCore.cons (SNode.mk (SCore.symbol "a") (some (SrcSpan.mk 1 2 1 3)))
          (mkBound (pTok TokKind.lparen "(" 1 1) (pTok TokKind.rparen ")" 1 9)
            (SCore.cons (SNode.mk (SCore.symbol "b") (some (SrcSpan.mk 1 4 1 5)))
                        (SNode.mk (SCore.symbol "c") (some (SrcSpan.mk 1 8 1 9))))))) ∧
    parenNode (pTok TokKind.lparen "(" 1 1) (pTok TokKind.rparen ")" 1 9)
        [SNode.mk (SCore.symbol "a") (some (SrcSpan.mk 1 2 1 3)),
         SNode.mk (SCore.symbol ".") (some (SrcSpan.mk 1 4 1 5)),
         SNode.mk (SCore.symbol "b") (some (SrcSpan.mk 1 6 1 7)),
         SNode.mk (SCore.symbol ".") (some (SrcSpan.mk 1 7 1 8)),
         SNode.mk (SCore.symbol "c") (some (SrcSpan.mk 1 8 1 9))] =
      Except.error (LexError.malformed "Malformed dotted list" 1 4) := by
  have h := c2_dotted_list_cons (pTok TokKind.lparen "(" 1 1) (pTok TokKind.rparen ")" 1 9)
    (SNode.mk (SCore.symbol "a") (some (SrcSpan.mk 1 2 1 3)))
    (SNode.mk (SCore.symbol "b") (some (SrcSpan.mk 1 4 1 5)))
    (SNode.mk (SCore.symbol "c") (some (SrcSpan.mk 1 8 1 9)))
    (some (SrcSpan.mk 1 4 1 5)) (some (SrcSpan.mk 1 7 1 8))
    (by rfl) (by rfl) (by rfl)
  refine ⟨?_, h.2.1, ?_⟩
  · exact (c2_dotted_list_cons (pTok TokKind.lparen "(" 1 1) (pTok TokKind.rparen ")" 1 9)
      (SNode.mk (SCore.symbol "a") (some (SrcSpan.mk 1 2 1 3)))
      (SNode.mk (SCore.symbol "b") (some (SrcSpan.mk 1 6 1 7)))
      (SNode.mk (SCore.symbol "c") (some (SrcSpan.mk 1 8 1 9)))
      (some (SrcSpan.mk 1 4 1 5)) (some (SrcSpan.mk 1 7 1 8))
      (by rfl) (by rfl) (by rfl)).1
  · exact (c2_dotted_list_cons (pTok TokKind.lparen "(" 1 1) (pTok TokKind.rparen ")" 1 9)
      (SNode.mk (SCore.symbol "a") (some (SrcSpan.mk 1 2 1 3)))
      (SNode.mk (SCore.symbol "b") (some (SrcSpan.mk 1 6 1 7)))
      (SNode.mk (SCore.symbol "c") (some (SrcSpan.mk 1 8 1 9)))
      (some (SrcSpan.mk 1 4 1 5)) (some (SrcSpan.mk 1 7 1 8))
      (by rfl) (by rfl) (by rfl)).2.2

/-- C3 counterexample: the claim says a bare `.` as the very first item is
permitted even when the form has a dotted tail, but parsing `(. a . b)` is
rejected: `reject_spurious_dots(cont[:-2], cont[-1:])` in the dotted branch
scans the first item too and raises at the leading dot's position. -/
theorem c3_counterexample :
    hyParse [pTok TokKind.lparen "(" 1 1, idTok "." 1 2, idTok "a" 1 4,
             idTok "." 1 6, idTok "b" 1 8, pTok TokKind.rparen ")" 1 9] =
      Except.error (LexError.malformed "Malformed dotted list" 1 2) := by
  rfl

/-- C3 amended: a bare `.` as the very first item is permitted when the form
does not have a dotted tail; in a form with a dotted tail a bare `.` first
item is itself a malformed-input error at its position; and a bare `.` at
any position other than the first item or the separator position is a
malformed-input error. -/
theorem c3_first_item_dot_amended :
    (∀ (lp rp : Tok) (sp : Option SrcSpan) (rest : List SNode),
       (∀ x ∈ rest, isDotNode x = false) →
       parenNode lp rp (SNode.mk (SCore.symbol ".") sp :: rest) =
         Except.ok (mkBound lp rp
           (SCore.expression (SNode.mk (SCore.symbol ".") sp :: rest)))) ∧
    (∀ (lp rp : Tok) (sp : Option SrcSpan) (rest : List SNode),
       isDottedTail (SNode.mk (SCore.symbol ".") sp :: rest) = true →
       parenNode lp rp (SNode.mk (SCore.symbol ".") sp :: rest) =
         Except.error (LexError.malformed "Malformed dotted list"
           (startLineOf (SNode.mk (SCore.symbol ".") sp))
           (startColOf (SNode.mk (SCore.symbol ".") sp)))) ∧
    (∀ (lp rp : Tok) (x d : SNode) (rest : List SNode),
       isDottedTail (x :: rest) = false → d ∈ rest → isDotNode d = true →
       ∃ l c, parenNode lp rp (x :: rest) =
         Except.error (LexError.malformed "Malformed dotted list" l c)) := by
  refine ⟨?_, ?_, ?_⟩
  · intro lp rp sp rest hrest
    cases rest with
    | nil => rfl
    | cons x rs =>
      cases rs with
      | nil =>
        have hx := hrest x (by simp)
        simp [parenNode, rejectDots, List.find?, hx]
      | cons y rs2 =>
        have hdt : isDottedTail (SNode.mk (SCore.symbol ".") sp :: x :: y :: rs2) = false := by
          unfold isDottedTail
          have hlen : (SNode.mk (SCore.symbol ".") sp :: x :: y :: rs2).length - 2 =
              rs2.length + 1 := by
            simp
          rw [hlen]
          rw [List.get?_cons_succ]
          cases hq : (x :: y :: rs2).get? rs2.length with
          | none => simp [hq]
          | some el =>
            have hel : el ∈ x :: y :: rs2 := List.get?_mem hq
            have hf := hrest el hel
            simp [hq, hf]
        have hfind : (x :: y :: rs2).find? isDotNode = none := by
          rw [List.find?_eq_none]
          intro z hz
          simp [hrest z hz]
        simp [parenNode, hdt, rejectDots, hfind]
  · intro lp rp sp rest hdt
    cases rest with
    | nil => simp [isDottedTail] at hdt
    | cons x rs =>
      cases rs with
      | nil => simp [isDottedTail] at hdt
      | cons y rs2 =>
        have hrej : ∀ l : List SNode,
            rejectDots (SNode.mk (SCore.symbol ".") sp :: l) =
              some (LexError.malformed "Malformed dotted list"
                (startLineOf (SNode.mk (SCore.symbol ".") sp))
                (startColOf (SNode.mk (SCore.symbol ".") sp))) := by
          intro l
          unfold rejectDots
          rw [List.find?_cons_of_pos _ (isDotNode_dot sp)]
          rfl
        simp [parenNode, hdt, hrej]
  · intro lp rp x d rest hdt hdmem hddot
    obtain ⟨y, hy⟩ : ∃ y, rest.find? isDotNode = some y := by
      cases hf : rest.find? isDotNode with
      | some y => exact ⟨y, rfl⟩
      | none =>
        exact absurd hddot (by simpa using List.find?_eq_none.mp hf d hdmem)
    cases rest with
    | nil => cases hdmem
    | cons z rs =>
      cases rs with
      | nil =>
        refine ⟨startLineOf y, startColOf y, ?_⟩
        simp [parenNode, rejectDots, hy]
      | cons w rs2 =>
        refine ⟨startLineOf y, startColOf y, ?_⟩
        simp [parenNode, hdt, rejectDots, hy]

/-- C3 witness: `(. a)` is accepted as a plain expression whose first item
is the bare dot symbol, and `(. a . b)`-shaped contents are rejected at the
leading dot. -/
theorem c3_first_item_dot_amended_witness :
    parenNode (pTok TokKind.lparen "(" 1 1) (pTok TokKind.rparen ")" 1 6)
        [SNode.mk (SCore.symbol ".") (some (SrcSpan.mk 1 2 1 3)),
         SNode.mk (SCore.symbol "a") (some (SrcSpan.mk 1 4 1 5))] =
      Except.ok (mkBound (pTok TokKind.lparen "(" 1 1) (pTok TokKind.rparen ")" 1 6)
        (SCore.expression
          [SNode.mk (SCore.symbol ".") (some (SrcSpan.mk 1 2 1 3)),
           SNode.mk (SCore.symbol "a") (some (SrcSpan.mk 1 4 1 5))])) ∧
    parenNode (pTok TokKind.lparen "(" 1 1) (pTok TokKind.rparen ")" 1 9)
        [SNode.mk (SCore.symbol ".") (some (SrcSpan.mk 1 2 1 3)),
         SNode.mk (SCore.symbol "a") (some (SrcSpan.mk 1 4 1 5)),
         SNode.mk (SCore.symbol ".") (some (SrcSpan.mk 1 6 1 7)),
         SNode.mk (SCore.symbol "b") (some (SrcSpan.mk 1 8 1 9))] =
      Except.error (LexError.malformed "Malformed dotted list" 1 2) := by
  constructor
  · exact c3_first_item_dot_amended.1 (pTok TokKind.lparen "(" 1 1)
      (pTok TokKind.rparen ")" 1 6) (some (SrcSpan.mk 1 2 1 3))
      [SNode.mk (SCore.symbol "a") (some (SrcSpan.mk 1 4 1 5))]
      (by intro x hx; cases hx with
          | head => rfl
          | tail _ h => cases h)
  · exact c3_first_item_dot_amended.2.1 (pTok TokKind.lparen "(" 1 1)
      (pTok TokKind.rparen ")" 1 9) (some (SrcSpan.mk 1 2 1 3))
      [SNode.mk (SCore.symbol "a") (some (SrcSpan.mk 1 4 1 5)),
       SNode.mk (SCore.symbol ".") (some (SrcSpan.mk 1 6 1 7)),
       SNode.mk (SCore.symbol "b") (some (SrcSpan.mk 1 8 1 9))]
      (by rfl)

/-- C4 counterexample: the claim quantifies over every identifier token text
containing a dot whose pre-dot segment classifies, but `1.5` contains a dot,
its pre-dot segment `1` classifies as an Integer, and parsing it yields a
Float node, not a malformed-input error: the attribute check only runs after
`symbol_like` has failed on the whole text. -/
theorem c4_counterexample :
    '.' ∈ ("1.5" : String).data ∧
    (symbol_like "1").isSome = true ∧
    t_identifier (Tok.mk TokKind.identifier "1.5" 1 1) =
      Except.ok (mkSingle (Tok.mk TokKind.identifier "1.5" 1 1) (SCore.float "1.5")) :=
  ⟨by decide, rfl, rfl⟩

/-- C4 amended: for every identifier token text containing a dot that does
not itself classify through steps 1-5, if the segment before the first dot
classifies as numeric or keyword, parsing raises the attribute-access
malformed-input error at the token's position. -/
theorem c4_dotted_numeric_error (t : String) (l c : Nat)
    (h1 : '.' ∈ t.data) (h2 : symbol_like t = none)
    (h3 : (symbol_like (String.mk (t.data.takeWhile (fun ch => ch ≠ '.')))).isSome = true) :
    t_identifier (Tok.mk TokKind.identifier t l c) =
      Except.error (LexError.malformed attrAccessMsg l c) := by
  unfold t_identifier t_identifier_core
  simp only [h2]
  rw [if_pos ⟨h1, h3⟩]

/-- C4 witness: `5.attr` raises the attribute-access error at the token's
position. -/
theorem c4_dotted_numeric_error_witness :
    t_identifier (Tok.mk TokKind.identifier "5.attr" 1 1) =
      Except.error (LexError.malformed attrAccessMsg 1 1) :=
  c4_dotted_numeric_error "5.attr" 1 1 (by decide) rfl rfl

/-- C6 counterexample: the claim says a reader-produced Symbol never
contains a hyphen unless it is the single-character symbol `-`, but the
token `x.-` produces the Symbol `x.-`, which contains a hyphen and is not
`-`: a dot-separated segment that is exactly `-` survives mangling
unchanged. -/
theorem c6_counterexample :
    t_identifier_core "x.-" = Except.ok (SCore.symbol "x.-") ∧
    '-' ∈ ("x.-" : String).data ∧ ("x.-" : String) ≠ "-" :=
  ⟨rfl, by decide, by decide⟩

/-- C6 amended: every Symbol name the classifier produces decomposes into
dot-joined segments each of which is either exactly `-` or free of `-`: a
hyphen survives only as a whole segment (in particular as the
single-character symbol `-`). -/
theorem c6_no_hyphen_amended (t s : String)
    (h : t_identifier_core t = Except.ok (SCore.symbol s)) :
    ∃ parts : List (List Char), s.data = intercalateChar '.' parts ∧
      ∀ p ∈ parts, p = ['-'] ∨ '-' ∉ p := by
  unfold t_identifier_core at h
  split at h
  · rename_i w hs
    injection h with h'
    exact absurd h' (symbol_like_not_symbol t w hs s)
  · split at h
    · exact absurd h (by simp)
    · injection h with h'
      injection h' with h''
      refine ⟨(splitChar '.' t.data).map mangleSeg, ?_, ?_⟩
      · rw [← h'']
        rfl
      · intro p hp
        obtain ⟨seg, _, rfl⟩ := List.mem_map.mp hp
        exact mangleSeg_dash seg

/-- C6 witness: the token `a-b.c` produces the Symbol `a_b.c`, whose
segments are hyphen-free. -/
theorem c6_no_hyphen_amended_witness :
    ∃ parts : List (List Char), ("a_b.c" : String).data = intercalateChar '.' parts ∧
      ∀ p ∈ parts, p = ['-'] ∨ '-' ∉ p :=
  c6_no_hyphen_amended "a-b.c" "a_b.c" rfl

/-- C7: parsing `(#_a b)` yields the same forms as parsing `(b)` and parsing
`(#_a #_b)` the same as `()` (structurally, spans erased since the source
texts differ); and in general a sequence opening with a discard whose
remainder cannot parse as `DISCARD term term` but consists entirely of
discard/term pairs contributes zero elements. -/
theorem c7_discard_pairs :
    parseShape [pTok TokKind.lparen "(" 1 1, pTok TokKind.discard "#_" 1 2,
                idTok "a" 1 4, idTok "b" 1 6, pTok TokKind.rparen ")" 1 7] =
      parseShape [pTok TokKind.lparen "(" 1 1, idTok "b" 1 2,
                  pTok TokKind.rparen ")" 1 3] ∧
    parseShape [pTok TokKind.lparen "(" 1 1, pTok TokKind.discard "#_" 1 2,
                idTok "a" 1 4, pTok TokKind.discard "#_" 1 6, idTok "b" 1 8,
                pTok TokKind.rparen ")" 1 9] =
      parseShape [pTok TokKind.lparen "(" 1 1, pTok TokKind.rparen ")" 1 2] ∧
    (∀ (n : Nat) (t : Tok) (ts : List Tok) (e : LexError) (r : List Tok),
       t.kind = TokKind.discard →
       parseTerm (n + 1) (t :: ts) = Except.error e →
       parseDiscards (n + 1) (t :: ts) = Except.ok r →
       parseSeq (n + 1 + 1) (t :: ts) = Except.ok ([], r)) := by
  refine ⟨rfl, rfl, ?_⟩
  intro n t ts e r hk h2 h3
  simp only [parseSeq]
  rw [hk]
  simp [isCloser, h2, h3]

/-- C7 witness: the general conjunct at a concrete input: a lone
`#_ a` tail contributes zero elements. -/
theorem c7_discard_pairs_witness :
    parseSeq 6 [pTok TokKind.discard "#_" 1 1, idTok "a" 1 3] =
      Except.ok ([], []) :=
  c7_discard_pairs.2.2 4 (pTok TokKind.discard "#_" 1 1) [idTok "a" 1 3]
    prematureEnd [] rfl rfl rfl

/-- C8: counting the asterisks of a HASHSTARS marker after its leading `#`:
exactly one wraps the following term in `unpack_iterable` (so `#*x` parses
like `(unpack_iterable x)`), exactly two in `unpack_mapping`, and any other
count is a malformed-input error at the marker's position. -/
theorem c8_hashstars (n : Nat) (val : String) (l c : Nat) (ts : List Tok)
    (v : SNode) (r : List Tok)
    (h : parseTerm n ts = Except.ok (v, r)) :
    ((val.drop 1).length = 1 →
      parseTerm (n + 1) (Tok.mk TokKind.hashstars val l c :: ts) =
        Except.ok (mkQuoteBound (Tok.mk TokKind.hashstars val l c) v
          (SCore.expression [bare (SCore.symbol "unpack_iterable"), v]), r)) ∧
    ((val.drop 1).length = 2 →
      parseTerm (n + 1) (Tok.mk TokKind.hashstars val l c :: ts) =
        Except.ok (mkQuoteBound (Tok.mk TokKind.hashstars val l c) v
          (SCore.expression [bare (SCore.symbol "unpack_mapping"), v]), r)) ∧
    ((val.drop 1).length ≠ 1 → (val.drop 1).length ≠ 2 →
      parseTerm (n + 1) (Tok.mk TokKind.hashstars val l c :: ts) =
        Except.error (LexError.malformed tooManyStarsMsg l c)) ∧
    parseShape [pTok TokKind.hashstars "#*" 1 1, idTok "x" 1 3] =
      parseShape [pTok TokKind.lparen "(" 1 1, idTok "unpack_iterable" 1 2,
                  idTok "x" 1 18, pTok TokKind.rparen ")" 1 19] ∧
    parseShape [pTok TokKind.hashstars "#**" 1 1, idTok "x" 1 4] =
      parseShape [pTok TokKind.lparen "(" 1 1, idTok "unpack_mapping" 1 2,
                  idTok "x" 1 17, pTok TokKind.rparen ")" 1 18] ∧
    hyParse [pTok TokKind.hashstars "#***" 1 1, idTok "x" 1 5] =
      Except.error (LexError.malformed tooManyStarsMsg 1 1) := by
  refine ⟨?_, ?_, ?_, rfl, rfl, rfl⟩
  · intro h1
    simp only [parseTerm]
    rw [h]
    simp [finishHashstars, h1]
  · intro h2
    simp only [parseTerm]
    rw [h]
    simp [finishHashstars, h2]
  · intro h1 h2
    simp only [parseTerm]
    rw [h]
    simp [finishHashstars, h1, h2]

/-- C8 witness: `#*x` wraps the symbol `x` in `unpack_iterable` at a
concrete input. -/
theorem c8_hashstars_witness :
    parseTerm 2 [pTok TokKind.hashstars "#*" 1 1, idTok "x" 1 3] =
      Except.ok (mkQuoteBound (pTok TokKind.hashstars "#*" 1 1)
        (mkSingle (idTok "x" 1 3) (SCore.symbol "x"))
        (SCore.expression [bare (SCore.symbol "unpack_iterable"),
                           mkSingle (idTok "x" 1 3) (SCore.symbol "x")]), []) :=
  (c8_hashstars 1 "#*" 1 1 [idTok "x" 1 3]
    (mkSingle (idTok "x" 1 3) (SCore.symbol "x")) [] rfl).1 rfl

/-- C9: a PARTIAL_STRING token in term position always signals incomplete
input (`PrematureEndOfInput`), never malformed input, whatever its text,
position and the following tokens; concretely so at top level, inside a
parenthesized form and inside a bracketed form. -/
theorem c9_partial_string_premature :
    (∀ (n : Nat) (v : String) (l c : Nat) (ts : List Tok),
       parseTerm (n + 1) (Tok.mk TokKind.pstring v l c :: ts) =
         Except.error prematureEnd) ∧
    hyParse [Tok.mk TokKind.pstring "\"a" 1 1] = Except.error prematureEnd ∧
    hyParse [pTok TokKind.lparen "(" 1 1, Tok.mk TokKind.pstring "\"a" 1 2] =
      Except.error prematureEnd ∧
    hyParse [pTok TokKind.lbracket "[" 1 1, idTok "x" 1 2,
             Tok.mk TokKind.pstring "\"a" 1 4] = Except.error prematureEnd := by
  refine ⟨?_, rfl, rfl, rfl⟩
  intro n v l c ts
  rfl

/-- C10: the `term : DISCARD term term` production returns the second
term's node itself, unchanged: its own span is kept, not widened over the
discard marker or the discarded first term (concretely, `#_x y` at columns
1/4/6 returns the `y` node spanning columns 6-7, exactly the node parsing
`y` alone yields). -/
theorem c10_discard_keeps_second_node (n : Nat) (t : Tok) (ts r1 r2 : List Tok)
    (d v : SNode)
    (hk : t.kind = TokKind.discard)
    (h1 : parseTerm n ts = Except.ok (d, r1))
    (h2 : parseTerm n r1 = Except.ok (v, r2)) :
    parseTerm (n + 1) (t :: ts) = Except.ok (v, r2) ∧
    parseTerm 3 [pTok TokKind.discard "#_" 1 1, idTok "x" 1 4, idTok "y" 1 6] =
      Except.ok (SNode.mk (SCore.symbol "y") (some (SrcSpan.mk 1 6 1 7)), []) ∧
    parseTerm 3 [idTok "y" 1 6] =
      Except.ok (SNode.mk (SCore.symbol "y") (some (SrcSpan.mk 1 6 1 7)), []) := by
  refine ⟨?_, rfl, rfl⟩
  simp only [parseTerm]
  rw [hk]
  simp [h1, h2]

/-- C10 witness: the general part at a concrete input. -/
theorem c10_discard_keeps_second_node_witness :
    parseTerm 4 [pTok TokKind.discard "#_" 1 1, idTok "x" 1 4, idTok "y" 1 6] =
      Except.ok (SNode.mk (SCore.symbol "y") (some (SrcSpan.mk 1 6 1 7)), []) :=
  (c10_discard_keeps_second_node 3 (pTok TokKind.discard "#_" 1 1)
    [idTok "x" 1 4, idTok "y" 1 6] [idTok "y" 1 6] []
    (mkSingle (idTok "x" 1 4) (SCore.symbol "x"))
    (SNode.mk (SCore.symbol "y") (some (SrcSpan.mk 1 6 1 7)))
    rfl rfl rfl).1
